import Mathlib

/-!
Verification development for the smart-meeting-room backend and firmware.

The definitions below are a shallow embedding of the repository's code:

* the RS485 frame codec of `esp32a_gateway.ino` (sendRS485Message) and
  `esp32c-display.ino` (handleRS485Message), modelled over `List Char`;
* the QR validation algorithm of `services/qrService.js` (validateQRCode);
* the socket configuration layer (`config/websocket.js`): device registry,
  registration handler, heartbeat handler, heartbeat timeout sweep;
* the service layer (`services/websocketService.js` and
  `services/esp32Service.js`): command dispatch, actuator control,
  startMeeting, emergencyShutdown, RFID scan handling, the offline command
  queue, and the reconnect flush;
* the booking model (`models/Booking.js`) and the status-update controller
  (`controllers/bookingController.js`).

Timestamps are integers (milliseconds since epoch, as JavaScript `Date`
arithmetic). Database tables are lists of records; the always-succeeding
logging calls of the source are not modelled (they have no control-flow
effect on the verified paths).
-/

/-! ### Data model: bookings and rooms -/

/-- A row of the `bookings` table (`models/Booking.js`): `status` is a free
string in the model, as in the source, where `updateStatus` writes any
string it is given. Times are in milliseconds. -/
structure Booking where
  id : Nat
  room_id : Nat
  qr_code : String
  status : String
  start_time : Int
  end_time : Int
deriving Repr, DecidableEq

/-- A row of the `rooms` table (`models/Room.js`): `esp32_id` is the id of
the gateway device serving the room, nullable in the schema. -/
structure Room where
  id : Nat
  esp32_id : Option String
deriving Repr, DecidableEq

/-- `Booking.findById`: first row with the given id. -/
def dbFindBooking (bs : List Booking) (bid : Nat) : Option Booking :=
  bs.find? (fun b => b.id == bid)

/-- `UPDATE bookings SET status = ? WHERE id = ?` (`Booking.updateStatus`):
unconditional write of the status column of the matching row. -/
def updateBookingStatusDB (bs : List Booking) (bid : Nat) (s : String) :
    List Booking :=
  bs.map (fun b => if b.id == bid then { b with status := s } else b)

/-! ### Frame codec (RS485 bus)

`sendRS485Message` builds `target + ";" + command + ";" + params + "\n"`
(the third field is present whenever params is non-null).
`handleRS485Message` receives the line read by `readStringUntil('\n')`
and trimmed by `String::trim()`, locates the first two semicolons with
`indexOf`, and rejects the line when either is missing. -/

/-- Encoder: the frame produced by `sendRS485Message` for a non-null
payload, as a character list. -/
def encodeFrame (t m p : List Char) : List Char :=
  t ++ [';'] ++ m ++ [';'] ++ p ++ ['\n']

/-- Whitespace as recognised by Arduino `String::trim` (C `isspace`). -/
def isSpaceChar (c : Char) : Bool :=
  c == ' ' || c == '\t' || c == '\n' || c == '\r' ||
  c == Char.ofNat 11 || c == Char.ofNat 12

/-- `String::trim`: strip whitespace from both ends. -/
def trimChars (l : List Char) : List Char :=
  ((l.dropWhile isSpaceChar).reverse.dropWhile isSpaceChar).reverse

/-- `readStringUntil('\n')`: consume up to (excluding) the terminator. -/
def readLine (l : List Char) : List Char :=
  l.takeWhile (fun c => c ≠ '\n')

/-- Split at the first semicolon (`indexOf(';')` plus `substring`):
`none` when no semicolon is present. -/
def splitSemi : List Char → Option (List Char × List Char)
  | [] => none
  | c :: cs =>
    if c == ';' then some ([], cs)
    else
      match splitSemi cs with
      | none => none
      | some (a, b) => some (c :: a, b)

/-- Decoder (`handleRS485Message` parsing stage): trim the received line,
split off the target and the message type at the first two semicolons;
`none` models the "Invalid RS485 message format" rejection. The payload
is everything after the second semicolon. -/
def decodeFrame (raw : List Char) :
    Option (List Char × List Char × List Char) :=
  match splitSemi (trimChars (readLine raw)) with
  | none => none
  | some (t, rest) =>
    match splitSemi rest with
    | none => none
    | some (m, p) => some (t, m, p)

/-! ### QR validation (`qrService.validateQRCode`, structured-token branch) -/

/-- The structured token carried by a generated QR code; only the fields
`validateQRCode` reads are modelled. In the source a missing `booking_id`
is the falsy `0`/`undefined` and a missing `qr_code` the falsy empty
string. -/
structure QRData where
  qtype : String
  booking_id : Nat
  qr_code : String
deriving Repr, DecidableEq

/-- Outcome of `validateQRCode`: the rejected case carries the `message`
string of the returned object. -/
inductive QRResult where
  | accepted (bookingId : Nat)
  | rejected (message : String)
deriving Repr, DecidableEq

/-- `qrService.validateQRCode` on an already-parsed structured token
(`JSON.parse` succeeded), checked against the booking table at time
`now` (ms): type check, field presence, lookup, secret comparison,
early-access window (15 min), expiry, status check, in source order. -/
def validateQRCode (bs : List Booking) (now : Int) (q : QRData) : QRResult :=
  if q.qtype ≠ "booking" then .rejected "Invalid QR code type"
  else if q.booking_id == 0 || q.qr_code == "" then
    .rejected "Invalid QR code data"
  else
    match dbFindBooking bs q.booking_id with
    | none => .rejected "Booking not found"
    | some booking =>
      if booking.qr_code ≠ q.qr_code then .rejected "QR code mismatch"
      else if now < booking.start_time - 15 * 60 * 1000 then
        .rejected "Too early for this booking"
      else if booking.end_time < now then .rejected "Booking has expired"
      else if booking.status == "pending" || booking.status == "confirmed" then
        .accepted booking.id
      else .rejected ("Booking is " ++ booking.status)

/-! ### Socket configuration layer (`config/websocket.js`)

`connectedESP32Devices` is a JavaScript `Map` keyed by device id; it is
modelled as an association list in insertion order (`Map.set` replaces in
place, a new key is appended). `broadcastToWebClients` notifications are
collected into an event log as `(eventType, deviceId)` pairs. -/

/-- Value stored in `connectedESP32Devices` for one device. -/
structure DeviceEntry where
  socketId : String
  roomId : Nat
  lastSeen : Int
  dstatus : String
deriving Repr, DecidableEq

/-- The configuration-layer state: device map plus the log of
notifications broadcast to web clients. -/
structure CfgState where
  devices : List (String × DeviceEntry)
  events : List (String × String)
deriving Repr, DecidableEq

/-- `Map.set`: replace the entry in place when the key exists, else
append (JS `Map` preserves insertion order on overwrite). -/
def mapSet (ds : List (String × DeviceEntry)) (id : String)
    (e : DeviceEntry) : List (String × DeviceEntry) :=
  if (ds.find? (fun kv => kv.1 == id)).isSome then
    ds.map (fun kv => (kv.1, if kv.1 == id then e else kv.2))
  else ds ++ [(id, e)]

/-- `Map.get` via `find?` on the association list. -/
def mapGet (ds : List (String × DeviceEntry)) (id : String) :
    Option DeviceEntry :=
  (ds.find? (fun kv => kv.1 == id)).map (fun kv => kv.2)

/-- The `esp32_register` handler: unconditionally `Map.set` the entry
with a fresh `lastSeen` and status `connected`, then broadcast
`device_connected` to web clients. No prior-session check is made and
no prior socket is closed. -/
def esp32Register (st : CfgState) (deviceId socketId : String)
    (roomId : Nat) (now : Int) : CfgState :=
  { devices := mapSet st.devices deviceId
      ⟨socketId, roomId, now, "connected"⟩,
    events := st.events ++ [("device_connected", deviceId)] }

/-- The `heartbeat` handler: refresh `lastSeen` of the sender's entry
when present; no other field is touched. -/
def heartbeatMsg (st : CfgState) (deviceId : String) (now : Int) :
    CfgState :=
  { st with
    devices := st.devices.map (fun kv =>
      (kv.1, if kv.1 == deviceId then { kv.2 with lastSeen := now }
             else kv.2)) }

/-- Staleness test of `startHeartbeatCheck`: `now - lastSeen > 60000`. -/
def staleAt (e : DeviceEntry) (now : Int) : Bool :=
  decide (60000 < now - e.lastSeen)

/-- One sweep of the 30-second `startHeartbeatCheck` interval: every
stale entry is reclassified `timeout` and a `device_timeout`
notification is broadcast for it. -/
def heartbeatSweep (st : CfgState) (now : Int) : CfgState :=
  { devices := st.devices.map (fun kv =>
      (kv.1, if staleAt kv.2 now then { kv.2 with dstatus := "timeout" }
             else kv.2)),
    events := st.events ++
      (st.devices.filter (fun kv => staleAt kv.2 now)).map
        (fun kv => ("device_timeout", kv.1)) }

/-! ### Service layer (`services/websocketService.js`, `services/esp32Service.js`)

The service layer is modelled as explicit state passing. `attempted`
logs every `sendCommandToDevice` call (the command was issued);
`delivered` logs the subset that reached a connected device (the
`socket.emit`). `broadcasts` logs `broadcastEvent` emissions to all web
observers (`io.emit`, independent of any device's connectivity).
`queue` is `esp32Service.deviceCommandQueue`. -/

/-- A command as put on the wire by `sendCommandToDevice`: the actuator
control messages, display updates and scan responses the claims are
about. -/
inductive Cmd where
  | actuatorControl (actuator action : String)
  | displayUpdate (dstatus : String)
  | espResponse (rtype : String)
deriving Repr, DecidableEq

/-- The combined database and socket-service state. -/
structure SysState where
  rooms : List Room
  bookings : List Booking
  connected : List String
  attempted : List (String × Cmd)
  delivered : List (String × Cmd)
  broadcasts : List String
  queue : List (String × List Cmd)
deriving Repr, DecidableEq

/-- The `{ success, message }` result objects returned by the service
methods. -/
structure SvcResult where
  success : Bool
  message : String
deriving Repr, DecidableEq

/-- `Room.findById`. -/
def findRoom (st : SysState) (roomId : Nat) : Option Room :=
  st.rooms.find? (fun r => r.id == roomId)

/-- `Booking.findByQRCode`: first booking whose `qr_code` column equals
the scanned value. -/
def findByQRCode (st : SysState) (qr : String) : Option Booking :=
  st.bookings.find? (fun b => b.qr_code == qr)

/-- The `WHERE` clause of `Room.getCurrentBooking`: active status and
`start_time <= now < end_time`. -/
def isCurrentAt (b : Booking) (roomId : Nat) (now : Int) : Bool :=
  b.room_id == roomId && b.status == "active" &&
  decide (b.start_time ≤ now) && decide (now < b.end_time)

/-- `ORDER BY start_time ASC LIMIT 1`: the first row with minimal
`start_time` among the filtered rows. -/
def minStartFirst : List Booking → Option Booking
  | [] => none
  | b :: bs =>
    match minStartFirst bs with
    | none => some b
    | some c => if c.start_time < b.start_time then some c else some b

/-- `Room.getCurrentBooking` evaluated at time `now`. -/
def getCurrentBooking (st : SysState) (roomId : Nat) (now : Int) :
    Option Booking :=
  minStartFirst (st.bookings.filter (fun b => isCurrentAt b roomId now))

/-- `websocketService.sendCommandToDevice`: the attempt is always made;
`websocketConfig.sendCommandToDevice` succeeds exactly when the target
is a connected device with a live socket, otherwise the call reports
`Device not connected` and nothing is queued. -/
def svcSendCommand (st : SysState) (dev : String) (c : Cmd) :
    SysState × SvcResult :=
  ({ st with
      attempted := st.attempted ++ [(dev, c)],
      delivered := st.delivered ++
        (if st.connected.contains dev then [(dev, c)] else []) },
   if st.connected.contains dev then
     ⟨true, "Command sent successfully"⟩
   else ⟨false, "Device not connected"⟩)

/-- `sendActuatorCommand`: resolve the room's gateway device and send an
`ACTUATOR_CONTROL` command to it; fails without side effect when the
room is unknown or has no gateway id. -/
def sendActuatorCommand (st : SysState) (roomId : Nat)
    (actuator action : String) : SysState × SvcResult :=
  match findRoom st roomId with
  | none => (st, ⟨false, "Room or ESP32 device not found"⟩)
  | some room =>
    match room.esp32_id with
    | none => (st, ⟨false, "Room or ESP32 device not found"⟩)
    | some dev => svcSendCommand st dev (.actuatorControl actuator action)

/-- `controlLighting`. -/
def controlLighting (st : SysState) (roomId : Nat) (state : Bool) :
    SysState × SvcResult :=
  sendActuatorCommand st roomId "light" (if state then "on" else "off")

/-- `controlAC` (the temperature field of the payload is not modelled). -/
def controlAC (st : SysState) (roomId : Nat) (state : Bool) :
    SysState × SvcResult :=
  sendActuatorCommand st roomId "ac" (if state then "on" else "off")

/-- `controlOutlets`. -/
def controlOutlets (st : SysState) (roomId : Nat) (state : Bool) :
    SysState × SvcResult :=
  sendActuatorCommand st roomId "outlets" (if state then "on" else "off")

/-- `controlDoor`. -/
def controlDoor (st : SysState) (roomId : Nat) (action : String) :
    SysState × SvcResult :=
  sendActuatorCommand st roomId "door" action

/-- `soundBuzzer`. -/
def soundBuzzer (st : SysState) (roomId : Nat) (pattern : String) :
    SysState × SvcResult :=
  sendActuatorCommand st roomId "buzzer" pattern

/-- First-occurrence substring replacement (JS `String.replace` with a
string pattern), over character lists. -/
def startsWithList : List Char → List Char → Bool
  | [], _ => true
  | _ :: _, [] => false
  | p :: ps, c :: cs => p == c && startsWithList ps cs

/-- Replace the first occurrence of `pat` by `rep`. -/
def replaceFirstList (pat rep : List Char) : List Char → List Char
  | [] => []
  | c :: cs =>
    if startsWithList pat (c :: cs) then rep ++ (c :: cs).drop pat.length
    else c :: replaceFirstList pat rep cs

/-- `room.esp32_id.replace('ESP32A', 'ESP32C')`: the display device id
derived from the gateway id. -/
def displayDeviceId (dev : String) : String :=
  ⟨replaceFirstList "ESP32A".data "ESP32C".data dev.data⟩

/-- `updateRoomDisplay`: send `DISPLAY_UPDATE` to the room's display
device (only the `status` field of the display payload is modelled; the
claims do not mention the remaining fields). -/
def updateRoomDisplay (st : SysState) (roomId : Nat) (dstatus : String) :
    SysState × SvcResult :=
  match findRoom st roomId with
  | none => (st, ⟨false, "Room or ESP32 device not found"⟩)
  | some room =>
    match room.esp32_id with
    | none => (st, ⟨false, "Room or ESP32 device not found"⟩)
    | some dev =>
      svcSendCommand st (displayDeviceId dev) (.displayUpdate dstatus)

/-- `websocketService.startMeeting`: look up the booking, set its status
to `active` (no time-window or prior-status check appears on this path),
then lighting on, AC on, outlets on, door unlock, display update,
welcome buzzer, and the `meeting_started` broadcast. Each actuator
result is ignored. -/
def startMeeting (st : SysState) (bookingId : Nat) :
    SysState × SvcResult :=
  match dbFindBooking st.bookings bookingId with
  | none => (st, ⟨false, "Booking not found"⟩)
  | some booking =>
    let st := { st with
      bookings := updateBookingStatusDB st.bookings booking.id "active" }
    let st := (controlLighting st booking.room_id true).1
    let st := (controlAC st booking.room_id true).1
    let st := (controlOutlets st booking.room_id true).1
    let st := (controlDoor st booking.room_id "unlock").1
    let st := (updateRoomDisplay st booking.room_id "meeting_active").1
    let st := (soundBuzzer st booking.room_id "welcome").1
    let st := { st with broadcasts := st.broadcasts ++ ["meeting_started"] }
    (st, ⟨true, "Meeting started successfully"⟩)

/-- `websocketService.emergencyShutdown`: a missing room makes
`room.getCurrentBooking()` throw, caught as a failure before any side
effect. Otherwise: lights off, AC off, outlets off, door unlock,
emergency buzzer, emergency display update, cancellation of the current
active booking when one exists, and the `emergency_alert` broadcast.
Actuator delivery failures are ignored. -/
def emergencyShutdown (st : SysState) (roomId : Nat) (now : Int) :
    SysState × SvcResult :=
  match findRoom st roomId with
  | none => (st, ⟨false, "Emergency shutdown failed"⟩)
  | some _ =>
    let currentBooking := getCurrentBooking st roomId now
    let st := (controlLighting st roomId false).1
    let st := (controlAC st roomId false).1
    let st := (controlOutlets st roomId false).1
    let st := (controlDoor st roomId "unlock").1
    let st := (soundBuzzer st roomId "emergency").1
    let st := (updateRoomDisplay st roomId "emergency").1
    let st :=
      match currentBooking with
      | some b => { st with
          bookings := updateBookingStatusDB st.bookings b.id "cancelled" }
      | none => st
    let st := { st with broadcasts := st.broadcasts ++ ["emergency_alert"] }
    (st, ⟨true, "Emergency shutdown completed"⟩)

/-- `esp32Service.handleRFIDScan`: look the scanned id up as a booking
`qr_code`; on a match, `startMeeting` immediately (the scan time `now`
is never consulted on this path), then answer the scanning device. -/
def handleRFIDScan (st : SysState) (deviceId rfid : String) (now : Int) :
    SysState × SvcResult :=
  match findByQRCode st rfid with
  | some booking =>
    let (st, result) := startMeeting st booking.id
    let st :=
      if result.success then
        (svcSendCommand st deviceId (.espResponse "RFID_VALIDATED")).1
      else (svcSendCommand st deviceId (.espResponse "RFID_REJECTED")).1
    (st, result)
  | none =>
    let st := (svcSendCommand st deviceId (.espResponse "RFID_REJECTED")).1
    (st, ⟨false, "Invalid RFID"⟩)

/-- `esp32Service.queueCommandForDevice`: append to the device's queue,
creating it when absent. This is the only writer of the queue; no
dispatch path calls it. -/
def queueCommandForDevice (st : SysState) (dev : String) (c : Cmd) :
    SysState :=
  { st with queue :=
      if (st.queue.find? (fun kv => kv.1 == dev)).isSome then
        st.queue.map (fun kv =>
          if kv.1 == dev then (kv.1, kv.2 ++ [c]) else kv)
      else st.queue ++ [(dev, [c])] }

/-- Queue lookup, as `deviceCommandQueue.get(deviceId)`. -/
def queueGet (st : SysState) (dev : String) : List Cmd :=
  ((st.queue.find? (fun kv => kv.1 == dev)).map (fun kv => kv.2)).getD []

/-- `esp32Service.handleDeviceConnect`: send every queued command for
the device through `sendCommandToDevice` in queue order, then delete
the device's queue entry. -/
def handleDeviceConnect (st : SysState) (dev : String) :
    SysState × SvcResult :=
  let qs := queueGet st dev
  let st := qs.foldl (fun s c => (svcSendCommand s dev c).1) st
  let st := { st with queue := st.queue.filter (fun kv => kv.1 ≠ dev) }
  (st, ⟨true, ""⟩)

/-! ### Booking status update (`bookingController.updateBookingStatus`) -/

/-- HTTP outcome of the status-update route. -/
inductive CtrlResult where
  | ok
  | badRequest (msg : String)
  | notFound
deriving Repr, DecidableEq

/-- The status whitelist of the controller. -/
def validStatuses : List String :=
  ["pending", "confirmed", "active", "completed", "cancelled"]

/-- `updateBookingStatus`: reject a missing (empty) or non-whitelisted
status, 404 an unknown booking, and otherwise write the new status with
no check of the booking's current status. -/
def updateBookingStatusCtrl (bs : List Booking) (bid : Nat) (s : String) :
    List Booking × CtrlResult :=
  if s == "" then (bs, .badRequest "Status is required")
  else if !(validStatuses.contains s) then (bs, .badRequest "Invalid status")
  else
    match dbFindBooking bs bid with
    | none => (bs, .notFound)
    | some _ => (updateBookingStatusDB bs bid s, .ok)

/-! ### Concrete fixtures used by witnesses and counterexamples -/

/-- A booking with `startTime = 0` and `endTime = 3600000` ms
(one hour), secret `secret-1`, status `confirmed`. -/
def bkConfirmed : Booking :=
  { id := 7, room_id := 1, qr_code := "secret-1", status := "confirmed",
    start_time := 0, end_time := 3600000 }

/-- A structured QR token matching `bkConfirmed`. -/
def qrTokenOk : QRData :=
  { qtype := "booking", booking_id := 7, qr_code := "secret-1" }

/-- The completed variant of `bkConfirmed`. -/
def bkCompleted : Booking := { bkConfirmed with status := "completed" }

/-! ### C10: the status-update operation enforces no transition relation -/

/-- Rows touched by `updateBookingStatusDB` carry the new status. -/
theorem mem_updateBookingStatusDB_status (bs : List Booking) (bid : Nat)
    (s : String) (b' : Booking)
    (hb' : b' ∈ updateBookingStatusDB bs bid s) (hid : b'.id = bid) :
    b'.status = s := by
  simp only [updateBookingStatusDB, List.mem_map] at hb'
  obtain ⟨a, -, rfl⟩ := hb'
  by_cases h : a.id = bid
  · simp [h]
  · simp [h] at hid

/-- C10: `updateBookingStatus` accepts any of the five statuses for a
booking in any current status (terminal ones included) and writes it
unconditionally; in particular a completed booking can be set back to
active. The booking's current status is universally quantified and is
never examined by the operation. -/
theorem updateStatus_unconditional
    (bs : List Booking) (bid : Nat) (s : String) (b : Booking)
    (hfind : dbFindBooking bs bid = some b)
    (hvalid : validStatuses.contains s = true) :
    (updateBookingStatusCtrl bs bid s).2 = CtrlResult.ok ∧
    ∀ b' ∈ (updateBookingStatusCtrl bs bid s).1,
      b'.id = bid → b'.status = s := by
  have hmem : s ∈ validStatuses := by simpa using hvalid
  have hs : (s == "") = false := by
    cases hb : s == "" with
    | false => rfl
    | true =>
      exfalso
      have hse : s = "" := by simpa using hb
      subst hse
      simp [validStatuses] at hmem
  constructor
  · simp [updateBookingStatusCtrl, hs, hvalid, hmem, hfind]
  · intro b' hb' hid
    have hred : (updateBookingStatusCtrl bs bid s).1 =
        updateBookingStatusDB bs bid s := by
      simp [updateBookingStatusCtrl, hs, hvalid, hmem, hfind]
    rw [hred] at hb'
    exact mem_updateBookingStatusDB_status bs bid s b' hb' hid

/-- Witness for C10: the completed booking `7` is set back to `active`
and the update is accepted. -/
theorem updateStatus_unconditional_witness :
    (dbFindBooking [bkCompleted] 7 = some bkCompleted ∧
      validStatuses.contains "active" = true) ∧
    ((updateBookingStatusCtrl [bkCompleted] 7 "active").2 =
        CtrlResult.ok ∧
      ∀ b' ∈ (updateBookingStatusCtrl [bkCompleted] 7 "active").1,
        b'.id = 7 → b'.status = "active") :=
  ⟨⟨by decide, by decide⟩,
    updateStatus_unconditional [bkCompleted] 7 "active" bkCompleted
      (by decide) (by decide)⟩

/-! ### C4: the credential validation window -/

/-- Counterexample to C4's window claim: with `startTime = 0` and
`endTime = 3600000` ms, a scan at exactly `endTime` is accepted by
`validateQRCode` (the source rejects only `now > endTime`), whereas the
claimed accepted window `[startTime - 15min, endTime)` excludes it. -/
theorem qr_window_closed_at_end_counterexample :
    bkConfirmed.end_time = 3600000 ∧
    validateQRCode [bkConfirmed] 3600000 qrTokenOk =
      QRResult.accepted 7 := by decide

/-- C4 (amended): for a booking with `startTime = T`,
`endTime = T + 3600s`, a valid secret and status pending/confirmed, a
scan at `T - 16min` is rejected `Too early for this booking`, a scan at
`T - 14min` is accepted, a scan at `T + 3601s` is rejected
`Booking has expired`, and in general the accepted window is the closed
interval `[T - 15min, T + 3600s]` (inclusive of `endTime`). -/
theorem qr_validation_window (bs : List Booking) (b : Booking) (T : Int)
    (q : QRData)
    (hq : q.qtype = "booking") (hbid : q.booking_id = b.id)
    (hbid0 : b.id ≠ 0) (hsec : q.qr_code = b.qr_code)
    (hsec0 : b.qr_code ≠ "")
    (hfind : dbFindBooking bs b.id = some b)
    (hstart : b.start_time = T) (hend : b.end_time = T + 3600000)
    (hstatus : b.status = "pending" ∨ b.status = "confirmed") :
    validateQRCode bs (T - 16 * 60000) q =
      QRResult.rejected "Too early for this booking" ∧
    validateQRCode bs (T - 14 * 60000) q = QRResult.accepted b.id ∧
    validateQRCode bs (T + 3601000) q =
      QRResult.rejected "Booking has expired" ∧
    ∀ now : Int,
      validateQRCode bs now q = QRResult.accepted b.id ↔
        T - 15 * 60000 ≤ now ∧ now ≤ T + 3600000 := by
  have hb0 : (q.booking_id == 0) = false := by simp [hbid, hbid0]
  have hc0 : (q.qr_code == "") = false := by
    simp only [hsec]
    simpa using hsec0
  have hst : (b.status == "pending" || b.status == "confirmed") = true := by
    rcases hstatus with h | h <;> simp [h]
  have key : ∀ now : Int, validateQRCode bs now q =
      if now < T - 15 * 60 * 1000 then
        QRResult.rejected "Too early for this booking"
      else if T + 3600000 < now then
        QRResult.rejected "Booking has expired"
      else QRResult.accepted b.id := by
    intro now
    unfold validateQRCode
    rw [hbid, hfind]
    simp [hq, hb0, hc0, hsec, hst, hstart, hend]
    rintro (h | h)
    · exact absurd h hbid0
    · exact absurd h hsec0
  refine ⟨?_, ?_, ?_, ?_⟩
  · rw [key]
    rw [if_pos (by omega)]
  · rw [key]
    rw [if_neg (by omega), if_neg (by omega)]
  · rw [key]
    rw [if_neg (by omega), if_pos (by omega)]
  · intro now
    rw [key now]
    by_cases h1 : now < T - 15 * 60 * 1000
    · rw [if_pos h1]
      simp only [reduceCtorEq, false_iff]
      omega
    · rw [if_neg h1]
      by_cases h2 : T + 3600000 < now
      · rw [if_pos h2]
        simp only [reduceCtorEq, false_iff]
        omega
      · rw [if_neg h2]
        simp only [true_iff]
        constructor
        · omega
        · omega

/-- Witness for C4 (amended): the concrete confirmed booking with
`T = 0`, scanned at `T - 16min`, `T - 14min` and `T + 3601s`. -/
theorem qr_validation_window_witness :
    (qrTokenOk.qtype = "booking" ∧ qrTokenOk.booking_id = bkConfirmed.id ∧
      bkConfirmed.id ≠ 0 ∧ qrTokenOk.qr_code = bkConfirmed.qr_code ∧
      bkConfirmed.qr_code ≠ "" ∧
      dbFindBooking [bkConfirmed] bkConfirmed.id = some bkConfirmed ∧
      bkConfirmed.start_time = 0 ∧ bkConfirmed.end_time = 0 + 3600000 ∧
      (bkConfirmed.status = "pending" ∨ bkConfirmed.status = "confirmed")) ∧
    (validateQRCode [bkConfirmed] (0 - 16 * 60000) qrTokenOk =
        QRResult.rejected "Too early for this booking" ∧
      validateQRCode [bkConfirmed] (0 - 14 * 60000) qrTokenOk =
        QRResult.accepted bkConfirmed.id ∧
      validateQRCode [bkConfirmed] (0 + 3601000) qrTokenOk =
        QRResult.rejected "Booking has expired" ∧
      ∀ now : Int, validateQRCode [bkConfirmed] now qrTokenOk =
          QRResult.accepted bkConfirmed.id ↔
          0 - 15 * 60000 ≤ now ∧ now ≤ 0 + 3600000) :=
  ⟨⟨by decide, by decide, by decide, by decide, by decide, by decide,
     by decide, by decide, by decide⟩,
   qr_validation_window [bkConfirmed] bkConfirmed 0 qrTokenOk (by decide)
     (by decide) (by decide) (by decide) (by decide) (by decide)
     (by decide) (by decide) (by decide)⟩

/-! ### C8: frame codec round-trip and malformed-line rejection -/

/-- A list whose first character is not bus whitespace (vacuously true
for the empty list). -/
def headNotSpace : List Char → Bool
  | [] => true
  | c :: _ => !isSpaceChar c

theorem dropWhile_eq_self_of_head (l : List Char)
    (h : headNotSpace l = true) : l.dropWhile isSpaceChar = l := by
  cases l with
  | nil => rfl
  | cons c cs =>
    have hc : isSpaceChar c = false := by simpa [headNotSpace] using h
    simp [List.dropWhile_cons, hc]

theorem trimChars_eq_self (l : List Char) (h1 : headNotSpace l = true)
    (h2 : headNotSpace l.reverse = true) : trimChars l = l := by
  unfold trimChars
  rw [dropWhile_eq_self_of_head l h1, dropWhile_eq_self_of_head _ h2,
    List.reverse_reverse]

theorem headNotSpace_append (t r : List Char)
    (h : headNotSpace t = true) (hr : headNotSpace r = true) :
    headNotSpace (t ++ r) = true := by
  cases t with
  | nil => simpa using hr
  | cons c cs => simpa [headNotSpace] using h

theorem readLine_append : ∀ (l r : List Char), '\n' ∉ l →
    readLine (l ++ '\n' :: r) = l
  | [], _, _ => by simp [readLine]
  | c :: cs, r, h => by
    have hc : ¬(c = '\n') := fun he => h (he ▸ List.mem_cons_self c cs)
    have ih := readLine_append cs r (fun hm => h (List.mem_cons_of_mem c hm))
    simpa [readLine, List.takeWhile_cons, hc] using ih

theorem splitSemi_append (a b : List Char) (ha : ';' ∉ a) :
    splitSemi (a ++ ';' :: b) = some (a, b) := by
  induction a with
  | nil => simp [splitSemi]
  | cons c cs ih =>
    have hc : (c == ';') = false := by
      simp only [beq_eq_false_iff_ne, ne_eq]
      exact fun he => ha (he ▸ List.mem_cons_self c cs)
    have ih' := ih (fun hm => ha (List.mem_cons_of_mem c hm))
    simp [splitSemi, hc, ih']

theorem splitSemi_eq : ∀ (l a b : List Char),
    splitSemi l = some (a, b) → l = a ++ ';' :: b := by
  intro l
  induction l with
  | nil => intro a b h; simp [splitSemi] at h
  | cons c cs ih =>
    intro a b h
    by_cases hc : c = ';'
    · subst hc
      simp [splitSemi] at h
      rw [h.1, ← h.2]
      rfl
    · have hcb : (c == ';') = false := by simpa using hc
      simp only [splitSemi, hcb, Bool.false_eq_true, if_false] at h
      cases hs : splitSemi cs with
      | none => rw [hs] at h; simp at h
      | some ab =>
        rw [hs] at h
        obtain ⟨x, y⟩ := ab
        simp only [Option.some.injEq, Prod.mk.injEq] at h
        obtain ⟨h1, h2⟩ := h
        rw [← h1, ← h2]
        simp [ih x y hs]

theorem count_ge_two_of_decode (raw t m p : List Char)
    (h : decodeFrame raw = some (t, m, p)) :
    2 ≤ (trimChars (readLine raw)).count ';' := by
  unfold decodeFrame at h
  cases h1 : splitSemi (trimChars (readLine raw)) with
  | none => rw [h1] at h; simp at h
  | some tr =>
    obtain ⟨t', rest⟩ := tr
    rw [h1] at h
    cases h2 : splitSemi rest with
    | none => simp [h2] at h
    | some mp =>
      obtain ⟨m', p'⟩ := mp
      have e1 := splitSemi_eq _ _ _ h1
      have e2 := splitSemi_eq _ _ _ h2
      rw [e1, e2]
      simp [List.count_append, List.count_cons]
      omega

/-- Counterexample to C8 as stated: the payload `"x "` (trailing space,
no `';'`, no newline) does not round-trip, because the receiver trims
the line before parsing; the decoded payload is `"x"`. -/
theorem frame_roundtrip_counterexample :
    ((';' ∈ (['x', ' '] : List Char)) = False ∧
      ('\n' ∈ (['x', ' '] : List Char)) = False) ∧
    decodeFrame (encodeFrame ['A'] ['B'] ['x', ' ']) =
      some (['A'], ['B'], ['x']) ∧
    (['x'] : List Char) ≠ ['x', ' '] := by decide

/-- C8 (amended): `decode(encode(t, m, p)) = (t, m, p)` for every
target, type and payload free of the separator `';'` and of newlines,
provided additionally that the frame survives the receiver's
`String::trim` — the target must not begin and the payload must not
end with whitespace. A line with fewer than two separators after
trimming is rejected as malformed rather than yielding a triple. -/
theorem frame_roundtrip (t m p : List Char)
    (ht : ';' ∉ t) (hm : ';' ∉ m)
    (hnt : '\n' ∉ t) (hnm : '\n' ∉ m) (hnp : '\n' ∉ p)
    (hhd : headNotSpace t = true)
    (hlast : headNotSpace p.reverse = true) :
    decodeFrame (encodeFrame t m p) = some (t, m, p) ∧
    ∀ raw : List Char,
      (trimChars (readLine raw)).count ';' < 2 → decodeFrame raw = none := by
  constructor
  · have henc : encodeFrame t m p = (t ++ ';' :: (m ++ ';' :: p)) ++ '\n' :: [] := by
      simp [encodeFrame]
    have hinner : '\n' ∉ t ++ ';' :: (m ++ ';' :: p) := by
      intro hmem
      simp only [List.mem_append, List.mem_cons] at hmem
      rcases hmem with h | h | h
      · exact hnt h
      · exact absurd h.symm (by decide)
      · rcases h with h | h
        · exact hnm h
        · rcases h with h | h
          · exact absurd h.symm (by decide)
          · exact hnp h
    have hread : readLine ((t ++ ';' :: (m ++ ';' :: p)) ++ '\n' :: []) =
        t ++ ';' :: (m ++ ';' :: p) :=
      readLine_append _ _ hinner
    have hsemi : headNotSpace (';' :: (m ++ ';' :: p)) = true := by
      simp [headNotSpace, isSpaceChar]
    have hh1 : headNotSpace (t ++ ';' :: (m ++ ';' :: p)) = true :=
      headNotSpace_append _ _ hhd hsemi
    have hrev : (t ++ ';' :: (m ++ ';' :: p)).reverse =
        p.reverse ++ ';' :: (m.reverse ++ ';' :: t.reverse) := by
      simp
    have hh2 : headNotSpace (t ++ ';' :: (m ++ ';' :: p)).reverse = true := by
      rw [hrev]
      exact headNotSpace_append _ _ hlast (by simp [headNotSpace, isSpaceChar])
    have htrim : trimChars (t ++ ';' :: (m ++ ';' :: p)) =
        t ++ ';' :: (m ++ ';' :: p) :=
      trimChars_eq_self _ hh1 hh2
    unfold decodeFrame
    rw [henc, hread, htrim, splitSemi_append t _ ht]
    simp [splitSemi_append m p hm]
  · intro raw hcount
    cases hd : decodeFrame raw with
    | none => rfl
    | some tmp =>
      obtain ⟨t', m', p'⟩ := tmp
      have := count_ge_two_of_decode raw t' m' p' hd
      omega

/-- Witness for C8 (amended): the frame `"C;DISPLAY;x"` round-trips. -/
theorem frame_roundtrip_witness :
    (';' ∉ (['C'] : List Char) ∧ ';' ∉ (['D'] : List Char) ∧
      '\n' ∉ (['C'] : List Char) ∧ '\n' ∉ (['D'] : List Char) ∧
      '\n' ∉ (['x'] : List Char) ∧ headNotSpace ['C'] = true ∧
      headNotSpace (['x'] : List Char).reverse = true) ∧
    (decodeFrame (encodeFrame ['C'] ['D'] ['x']) =
        some (['C'], ['D'], ['x']) ∧
      ∀ raw : List Char,
        (trimChars (readLine raw)).count ';' < 2 →
          decodeFrame raw = none) :=
  ⟨⟨by decide, by decide, by decide, by decide, by decide, by decide,
     by decide⟩,
   frame_roundtrip ['C'] ['D'] ['x'] (by decide) (by decide) (by decide)
     (by decide) (by decide) (by decide) (by decide)⟩

/-! ### C6: repeated registration -/

/-- `find?` by key commutes with a value-only update of the entries. -/
theorem find?_map_entry (l : List (String × DeviceEntry)) (id : String)
    (g : String × DeviceEntry → DeviceEntry) :
    (l.map (fun kv => (kv.1, g kv))).find? (fun kv => kv.1 == id) =
      (l.find? (fun kv => kv.1 == id)).map (fun kv => (kv.1, g kv)) := by
  induction l with
  | nil => rfl
  | cons kv l ih =>
    by_cases h : (kv.1 == id) = true
    · simp [List.find?_cons, h]
    · have h' : (kv.1 == id) = false := eq_false_of_ne_true h
      simp [List.find?_cons, h', ih]

/-- `mapGet` after a value-only update of the entries. -/
theorem mapGet_map_entry (l : List (String × DeviceEntry)) (id : String)
    (g : String × DeviceEntry → DeviceEntry) :
    mapGet (l.map (fun kv => (kv.1, g kv))) id =
      (l.find? (fun kv => kv.1 == id)).map g := by
  unfold mapGet
  rw [find?_map_entry]
  cases l.find? (fun kv => kv.1 == id) <;> rfl

/-- `Map.get` after `Map.set` at the same key. -/
theorem mapGet_mapSet (ds : List (String × DeviceEntry)) (id : String)
    (e : DeviceEntry) : mapGet (mapSet ds id e) id = some e := by
  unfold mapSet
  by_cases hf : (ds.find? (fun kv => kv.1 == id)).isSome = true
  · rw [if_pos hf]
    rw [mapGet_map_entry]
    obtain ⟨kv0, hkv0⟩ := Option.isSome_iff_exists.mp hf
    have hp := List.find?_some hkv0
    simp only at hp
    rw [hkv0]
    have heq : kv0.1 = id := by simpa using hp
    simp [heq]
  · rw [if_neg hf]
    have hnone : ds.find? (fun kv => kv.1 == id) = none :=
      Option.not_isSome_iff_eq_none.mp hf
    induction ds with
    | nil => simp [mapGet]
    | cons kv ds ih =>
      have h' : (kv.1 == id) = false := by
        cases h : (kv.1 == id) with
        | false => rfl
        | true => simp [List.find?_cons, h] at hnone
      have hnone' : ds.find? (fun kv => kv.1 == id) = none := by
        simpa [List.find?_cons, h'] using hnone
      have hf' : ¬(ds.find? (fun kv => kv.1 == id)).isSome = true := by
        simp [hnone']
      simpa [mapGet, List.find?_cons, h'] using ih hf' hnone'

/-- The empty registry. -/
def cfg0 : CfgState := { devices := [], events := [] }

/-- Counterexample to C6: registering `ESP32A-001` twice broadcasts
`device_connected` both times; `device_reconnected` appears nowhere in
the event log. -/
theorem register_twice_counterexample :
    (esp32Register (esp32Register cfg0 "ESP32A-001" "s1" 1 0)
        "ESP32A-001" "s2" 1 5000).events =
      [("device_connected", "ESP32A-001"),
        ("device_connected", "ESP32A-001")] ∧
    ("device_reconnected", "ESP32A-001") ∉
      (esp32Register (esp32Register cfg0 "ESP32A-001" "s1" 1 0)
        "ESP32A-001" "s2" 1 5000).events := by decide

/-- C6 (amended): every registration — first or repeated — replaces the
registry entry for the device (the fresh socket id, room and status
`connected` are stored) and broadcasts `device_connected`; the handler
never emits `device_reconnected` and never closes the prior connection
handle. -/
theorem register_always_device_connected (st : CfgState)
    (deviceId socketId : String) (roomId : Nat) (now : Int) :
    (esp32Register st deviceId socketId roomId now).events =
      st.events ++ [("device_connected", deviceId)] ∧
    (∀ ev ∈ (esp32Register st deviceId socketId roomId now).events,
      ev.1 = "device_reconnected" → ev ∈ st.events) ∧
    mapGet (esp32Register st deviceId socketId roomId now).devices
      deviceId = some ⟨socketId, roomId, now, "connected"⟩ := by
  refine ⟨rfl, ?_, mapGet_mapSet st.devices deviceId _⟩
  intro ev hev hre
  simp only [esp32Register, List.mem_append, List.mem_cons,
    List.not_mem_nil, or_false] at hev
  rcases hev with h | h
  · exact h
  · rw [h] at hre
    simp at hre

/-! ### C7: heartbeat timeout and recovery -/

/-- A registry whose only device is already in state `timeout`. -/
def cfgTimeout : CfgState :=
  { devices := [("ESP32A-001", ⟨"s1", 1, 0, "timeout"⟩)], events := [] }

/-- Counterexample to C7: a later heartbeat on a timed-out session
refreshes `lastSeen` but leaves the session in state `timeout` — it
does not transition back to `connected`. -/
theorem heartbeat_keeps_timeout_counterexample :
    mapGet cfgTimeout.devices "ESP32A-001" =
      some ⟨"s1", 1, 0, "timeout"⟩ ∧
    mapGet (heartbeatMsg cfgTimeout "ESP32A-001" 70000).devices
      "ESP32A-001" = some ⟨"s1", 1, 70000, "timeout"⟩ := by decide

/-- C7 (amended): a session whose `lastSeen` is more than 60 s old is
reclassified `timeout` by the next sweep and a `device_timeout`
notification is broadcast; a later heartbeat refreshes `lastSeen` but
never changes the state field (a timed-out session stays `timeout`),
and only a fresh `register` returns the session to `connected`. -/
theorem heartbeat_timeout_behaviour (st : CfgState) (dev : String)
    (e : DeviceEntry) (now now2 : Int) (sock : String) (roomId : Nat)
    (hget : mapGet st.devices dev = some e) :
    (staleAt e now = true →
      mapGet (heartbeatSweep st now).devices dev =
        some { e with dstatus := "timeout" } ∧
      ("device_timeout", dev) ∈ (heartbeatSweep st now).events) ∧
    mapGet (heartbeatMsg st dev now2).devices dev =
      some { e with lastSeen := now2 } ∧
    mapGet (esp32Register st dev sock roomId now2).devices dev =
      some ⟨sock, roomId, now2, "connected"⟩ := by
  obtain ⟨kv0, hkv0, hv⟩ : ∃ kv0,
      st.devices.find? (fun kv => kv.1 == dev) = some kv0 ∧ kv0.2 = e := by
    unfold mapGet at hget
    cases hf : st.devices.find? (fun kv => kv.1 == dev) with
    | none => rw [hf] at hget; simp at hget
    | some kv0 =>
      rw [hf] at hget
      exact ⟨kv0, rfl, by simpa using hget⟩
  have hkey : (kv0.1 == dev) = true := by
    have := List.find?_some hkv0
    simpa using this
  have hkey' : kv0.1 = dev := by simpa using hkey
  refine ⟨fun hstale => ⟨?_, ?_⟩, ?_, mapGet_mapSet st.devices dev _⟩
  · unfold heartbeatSweep
    rw [mapGet_map_entry, hkv0]
    simp [hv, hstale]
  · have hmem : kv0 ∈ st.devices := List.mem_of_find?_eq_some hkv0
    unfold heartbeatSweep
    simp only [List.mem_append]
    right
    refine List.mem_map.mpr ⟨kv0, ?_, by rw [hkey']⟩
    refine List.mem_filter.mpr ⟨hmem, ?_⟩
    rw [hv]
    simpa using hstale
  · unfold heartbeatMsg
    rw [mapGet_map_entry, hkv0]
    simp [hv, hkey]
    intro hne
    exact absurd hkey' hne

/-- Witness for C7 (amended): a connected device last seen at t = 0 is
swept at t = 70 s, and a heartbeat at t = 70 s refreshes it. -/
theorem heartbeat_timeout_behaviour_witness :
    mapGet [("D1", (⟨"s1", 1, 0, "connected"⟩ : DeviceEntry))] "D1" =
      some ⟨"s1", 1, 0, "connected"⟩ ∧
    ((staleAt ⟨"s1", 1, 0, "connected"⟩ 70000 = true →
      mapGet (heartbeatSweep ⟨[("D1", ⟨"s1", 1, 0, "connected"⟩)], []⟩
          70000).devices "D1" = some ⟨"s1", 1, 70000 - 70000, "timeout"⟩ ∧
      ("device_timeout", "D1") ∈
        (heartbeatSweep ⟨[("D1", ⟨"s1", 1, 0, "connected"⟩)], []⟩
          70000).events) ∧
    mapGet (heartbeatMsg ⟨[("D1", ⟨"s1", 1, 0, "connected"⟩)], []⟩
        "D1" 80000).devices "D1" = some ⟨"s1", 1, 80000, "connected"⟩ ∧
    mapGet (esp32Register ⟨[("D1", ⟨"s1", 1, 0, "connected"⟩)], []⟩
        "D1" "s2" 2 80000).devices "D1" =
      some ⟨"s2", 2, 80000, "connected"⟩) := by
  constructor
  · decide
  · have h := heartbeat_timeout_behaviour
      ⟨[("D1", ⟨"s1", 1, 0, "connected"⟩)], []⟩ "D1"
      ⟨"s1", 1, 0, "connected"⟩ 70000 80000 "s2" 2 (by decide)
    simpa using h

/-! ### Service-layer frame lemmas -/

theorem svcSend_rooms (st : SysState) (dev : String) (c : Cmd) :
    (svcSendCommand st dev c).1.rooms = st.rooms := rfl

theorem svcSend_bookings (st : SysState) (dev : String) (c : Cmd) :
    (svcSendCommand st dev c).1.bookings = st.bookings := rfl

theorem svcSend_connected (st : SysState) (dev : String) (c : Cmd) :
    (svcSendCommand st dev c).1.connected = st.connected := rfl

theorem svcSend_broadcasts (st : SysState) (dev : String) (c : Cmd) :
    (svcSendCommand st dev c).1.broadcasts = st.broadcasts := rfl

theorem svcSend_queue (st : SysState) (dev : String) (c : Cmd) :
    (svcSendCommand st dev c).1.queue = st.queue := rfl

theorem svcSend_attempted (st : SysState) (dev : String) (c : Cmd) :
    (svcSendCommand st dev c).1.attempted =
      st.attempted ++ [(dev, c)] := rfl

/-- `sendActuatorCommand` reduces to a plain send once the room and its
gateway id are resolved. -/
theorem sendActuatorCommand_eq (st : SysState) (roomId : Nat)
    (a act : String) (room : Room) (dev : String)
    (hroom : findRoom st roomId = some room)
    (hdev : room.esp32_id = some dev) :
    sendActuatorCommand st roomId a act =
      svcSendCommand st dev (.actuatorControl a act) := by
  unfold sendActuatorCommand
  simp only [hroom, hdev]

/-- `updateRoomDisplay` reduces to a plain send to the display device. -/
theorem updateRoomDisplay_eq (st : SysState) (roomId : Nat)
    (dstatus : String) (room : Room) (dev : String)
    (hroom : findRoom st roomId = some room)
    (hdev : room.esp32_id = some dev) :
    updateRoomDisplay st roomId dstatus =
      svcSendCommand st (displayDeviceId dev) (.displayUpdate dstatus) := by
  unfold updateRoomDisplay
  simp only [hroom, hdev]

/-- The six commands issued by `emergencyShutdown`, in source order. -/
def emergencyCmds (dev : String) : List (String × Cmd) :=
  [(dev, .actuatorControl "light" "off"),
   (dev, .actuatorControl "ac" "off"),
   (dev, .actuatorControl "outlets" "off"),
   (dev, .actuatorControl "door" "unlock"),
   (dev, .actuatorControl "buzzer" "emergency"),
   (displayDeviceId dev, .displayUpdate "emergency")]

/-- The six commands issued by `startMeeting`, in source order. -/
def startMeetingCmds (dev : String) : List (String × Cmd) :=
  [(dev, .actuatorControl "light" "on"),
   (dev, .actuatorControl "ac" "on"),
   (dev, .actuatorControl "outlets" "on"),
   (dev, .actuatorControl "door" "unlock"),
   (displayDeviceId dev, .displayUpdate "meeting_active"),
   (dev, .actuatorControl "buzzer" "welcome")]

/-- Normal form of `emergencyShutdown` on a room with a gateway. -/
theorem emergencyShutdown_normal (st : SysState) (roomId : Nat)
    (now : Int) (room : Room) (dev : String)
    (hroom : findRoom st roomId = some room)
    (hdev : room.esp32_id = some dev) :
    (emergencyShutdown st roomId now).1.attempted =
        st.attempted ++ emergencyCmds dev ∧
    (emergencyShutdown st roomId now).1.bookings =
        (match getCurrentBooking st roomId now with
          | some b => updateBookingStatusDB st.bookings b.id "cancelled"
          | none => st.bookings) ∧
    (emergencyShutdown st roomId now).1.broadcasts =
        st.broadcasts ++ ["emergency_alert"] ∧
    (emergencyShutdown st roomId now).2 =
        ⟨true, "Emergency shutdown completed"⟩ := by
  have hroom' : st.rooms.find? (fun r => r.id == roomId) = some room := hroom
  simp only [emergencyShutdown, controlLighting, controlAC, controlOutlets,
    controlDoor, soundBuzzer, updateRoomDisplay, sendActuatorCommand,
    svcSendCommand, findRoom, hroom', hdev, Bool.false_eq_true, if_false]
  cases hg : getCurrentBooking st roomId now with
  | none => simp [emergencyCmds]
  | some b => simp [emergencyCmds]

/-- Normal form of `startMeeting` on a known booking whose room has a
gateway. -/
theorem startMeeting_normal (st : SysState) (bookingId : Nat)
    (booking : Booking) (room : Room) (dev : String)
    (hbook : dbFindBooking st.bookings bookingId = some booking)
    (hroom : findRoom st booking.room_id = some room)
    (hdev : room.esp32_id = some dev) :
    (startMeeting st bookingId).1.attempted =
        st.attempted ++ startMeetingCmds dev ∧
    (startMeeting st bookingId).1.bookings =
        updateBookingStatusDB st.bookings booking.id "active" ∧
    (startMeeting st bookingId).1.broadcasts =
        st.broadcasts ++ ["meeting_started"] ∧
    (startMeeting st bookingId).2 =
        ⟨true, "Meeting started successfully"⟩ := by
  have hbook' : st.bookings.find? (fun b => b.id == bookingId) =
      some booking := hbook
  have hroom' : st.rooms.find? (fun r => r.id == booking.room_id) =
      some room := hroom
  simp only [startMeeting, dbFindBooking, controlLighting, controlAC,
    controlOutlets, controlDoor, soundBuzzer, updateRoomDisplay,
    sendActuatorCommand, svcSendCommand, findRoom, hbook', hroom', hdev]
  simp [startMeetingCmds]

/-! ### Fixtures for the service-layer claims -/

/-- Room 1, served by gateway `ESP32A-001`. -/
def roomA : Room := { id := 1, esp32_id := some "ESP32A-001" }

/-- An active booking for room 1, running over `[0, 3600000)` ms. -/
def bkActive : Booking :=
  { id := 9, room_id := 1, qr_code := "secret-9", status := "active",
    start_time := 0, end_time := 3600000 }

/-- Room 1 with its active booking; the gateway and display devices are
offline (`connected = []`), so every actuator delivery fails. -/
def sysOffline : SysState :=
  { rooms := [roomA], bookings := [bkActive], connected := [],
    attempted := [], delivered := [], broadcasts := [], queue := [] }

/-- Room 1 with its active booking and both devices connected. -/
def sysOnline : SysState :=
  { rooms := [roomA], bookings := [bkActive],
    connected := ["ESP32A-001", "ESP32C-001"],
    attempted := [], delivered := [], broadcasts := [], queue := [] }

/-- Room 1 with the confirmed booking `bkConfirmed` and both devices
connected. -/
def sysStart : SysState :=
  { rooms := [roomA], bookings := [bkConfirmed],
    connected := ["ESP32A-001", "ESP32C-001"],
    attempted := [], delivered := [], broadcasts := [], queue := [] }

/-! ### C1: emergency cancels the active booking and always broadcasts -/

/-- C1: on a room with a gateway and a currently active booking,
`emergencyShutdown` reports success, sets the active booking's status
to `cancelled`, issues the door-unlock command, and appends the
`emergency_alert` broadcast — for an arbitrary `connected` set, so in
particular when every actuator delivery fails because the target device
is offline. Delivery failures are reported as failed send results and
never interrupt the sequence. -/
theorem emergency_cancels_and_broadcasts (st : SysState) (roomId : Nat)
    (now : Int) (room : Room) (dev : String) (b : Booking)
    (hroom : findRoom st roomId = some room)
    (hdev : room.esp32_id = some dev)
    (hcur : getCurrentBooking st roomId now = some b) :
    (emergencyShutdown st roomId now).2.success = true ∧
    (∀ b' ∈ (emergencyShutdown st roomId now).1.bookings,
      b'.id = b.id → b'.status = "cancelled") ∧
    (dev, Cmd.actuatorControl "door" "unlock") ∈
      (emergencyShutdown st roomId now).1.attempted ∧
    "emergency_alert" ∈ (emergencyShutdown st roomId now).1.broadcasts := by
  obtain ⟨ha, hb, hbr, hres⟩ :=
    emergencyShutdown_normal st roomId now room dev hroom hdev
  refine ⟨by rw [hres], ?_, ?_, ?_⟩
  · intro b' hb' hid
    rw [hb] at hb'
    simp only [hcur] at hb'
    exact mem_updateBookingStatusDB_status _ _ _ _ hb' hid
  · rw [ha]
    simp [emergencyCmds]
  · rw [hbr]
    simp

/-- Witness for C1: room 1's active booking at t = 1 s, with every
device offline, is cancelled and the alert is still broadcast. -/
theorem emergency_cancels_and_broadcasts_witness :
    (findRoom sysOffline 1 = some roomA ∧
      roomA.esp32_id = some "ESP32A-001" ∧
      getCurrentBooking sysOffline 1 1000 = some bkActive) ∧
    ((emergencyShutdown sysOffline 1 1000).2.success = true ∧
      (∀ b' ∈ (emergencyShutdown sysOffline 1 1000).1.bookings,
        b'.id = bkActive.id → b'.status = "cancelled") ∧
      ("ESP32A-001", Cmd.actuatorControl "door" "unlock") ∈
        (emergencyShutdown sysOffline 1 1000).1.attempted ∧
      "emergency_alert" ∈
        (emergencyShutdown sysOffline 1 1000).1.broadcasts) :=
  ⟨⟨by decide, by decide, by decide⟩,
    emergency_cancels_and_broadcasts sysOffline 1 1000 roomA "ESP32A-001"
      bkActive (by decide) (by decide) (by decide)⟩

/-! ### C2: the emergency actuator set -/

/-- Counterexample to C2: `emergencyShutdown` does issue a lights-off
command — it is both attempted and, with the gateway connected,
delivered; the lights are not left unchanged. -/
theorem emergency_lights_off_counterexample :
    ("ESP32A-001", Cmd.actuatorControl "light" "off") ∈
      (emergencyShutdown sysOnline 1 1000).1.attempted ∧
    ("ESP32A-001", Cmd.actuatorControl "light" "off") ∈
      (emergencyShutdown sysOnline 1 1000).1.delivered := by decide

/-- C2 (amended): `emergencyShutdown` issues, in order, lights-off,
AC-off, outlets-off, door-unlock, the emergency buzzer pattern and the
emergency display update — lights are switched off, not left
unchanged. -/
theorem emergency_actuator_set (st : SysState) (roomId : Nat) (now : Int)
    (room : Room) (dev : String)
    (hroom : findRoom st roomId = some room)
    (hdev : room.esp32_id = some dev) :
    (emergencyShutdown st roomId now).1.attempted =
      st.attempted ++
        [(dev, Cmd.actuatorControl "light" "off"),
          (dev, Cmd.actuatorControl "ac" "off"),
          (dev, Cmd.actuatorControl "outlets" "off"),
          (dev, Cmd.actuatorControl "door" "unlock"),
          (dev, Cmd.actuatorControl "buzzer" "emergency"),
          (displayDeviceId dev, Cmd.displayUpdate "emergency")] ∧
    (emergencyShutdown st roomId now).2.success = true := by
  obtain ⟨ha, -, -, hres⟩ :=
    emergencyShutdown_normal st roomId now room dev hroom hdev
  exact ⟨ha, by rw [hres]⟩

/-- Witness for C2 (amended): the concrete emergency run on room 1. -/
theorem emergency_actuator_set_witness :
    (findRoom sysOnline 1 = some roomA ∧
      roomA.esp32_id = some "ESP32A-001") ∧
    ((emergencyShutdown sysOnline 1 1000).1.attempted =
        [("ESP32A-001", Cmd.actuatorControl "light" "off"),
          ("ESP32A-001", Cmd.actuatorControl "ac" "off"),
          ("ESP32A-001", Cmd.actuatorControl "outlets" "off"),
          ("ESP32A-001", Cmd.actuatorControl "door" "unlock"),
          ("ESP32A-001", Cmd.actuatorControl "buzzer" "emergency"),
          ("ESP32C-001", Cmd.displayUpdate "emergency")] ∧
      (emergencyShutdown sysOnline 1 1000).2.success = true) :=
  ⟨⟨by decide, by decide⟩, by
    have h := emergency_actuator_set sysOnline 1 1000 roomA "ESP32A-001"
      (by decide) (by decide)
    simpa using h⟩

/-! ### C9: actuator order on `confirmed → active` -/

/-- Counterexample to C9: starting the meeting for the confirmed
booking 7 issues lights-on first (then AC-on, outlets-on, door-unlock,
the display update, the welcome buzzer); door-unlock is not the first
command. -/
theorem startMeeting_order_counterexample :
    (startMeeting sysStart 7).1.attempted =
      [("ESP32A-001", Cmd.actuatorControl "light" "on"),
        ("ESP32A-001", Cmd.actuatorControl "ac" "on"),
        ("ESP32A-001", Cmd.actuatorControl "outlets" "on"),
        ("ESP32A-001", Cmd.actuatorControl "door" "unlock"),
        ("ESP32C-001", Cmd.displayUpdate "meeting_active"),
        ("ESP32A-001", Cmd.actuatorControl "buzzer" "welcome")] ∧
    (startMeeting sysStart 7).1.attempted.head? ≠
      some ("ESP32A-001", Cmd.actuatorControl "door" "unlock") := by decide

/-- C9 (amended): the transition to `active` issues, in exactly this
order, lights-on, AC-on, outlets-on, door-unlock, the
`meeting_active` display update, then the welcome buzzer pattern. -/
theorem startMeeting_command_order (st : SysState) (bookingId : Nat)
    (booking : Booking) (room : Room) (dev : String)
    (hbook : dbFindBooking st.bookings bookingId = some booking)
    (hroom : findRoom st booking.room_id = some room)
    (hdev : room.esp32_id = some dev) :
    (startMeeting st bookingId).1.attempted =
      st.attempted ++
        [(dev, Cmd.actuatorControl "light" "on"),
          (dev, Cmd.actuatorControl "ac" "on"),
          (dev, Cmd.actuatorControl "outlets" "on"),
          (dev, Cmd.actuatorControl "door" "unlock"),
          (displayDeviceId dev, Cmd.displayUpdate "meeting_active"),
          (dev, Cmd.actuatorControl "buzzer" "welcome")] ∧
    (startMeeting st bookingId).2.success = true := by
  obtain ⟨ha, -, -, hres⟩ :=
    startMeeting_normal st bookingId booking room dev hbook hroom hdev
  exact ⟨ha, by rw [hres]⟩

/-- Witness for C9 (amended): the concrete start of booking 7. -/
theorem startMeeting_command_order_witness :
    (dbFindBooking sysStart.bookings 7 = some bkConfirmed ∧
      findRoom sysStart bkConfirmed.room_id = some roomA ∧
      roomA.esp32_id = some "ESP32A-001") ∧
    ((startMeeting sysStart 7).1.attempted =
        [("ESP32A-001", Cmd.actuatorControl "light" "on"),
          ("ESP32A-001", Cmd.actuatorControl "ac" "on"),
          ("ESP32A-001", Cmd.actuatorControl "outlets" "on"),
          ("ESP32A-001", Cmd.actuatorControl "door" "unlock"),
          ("ESP32C-001", Cmd.displayUpdate "meeting_active"),
          ("ESP32A-001", Cmd.actuatorControl "buzzer" "welcome")] ∧
      (startMeeting sysStart 7).2.success = true) :=
  ⟨⟨by decide, by decide, by decide⟩, by
    have h := startMeeting_command_order sysStart 7 bkConfirmed roomA
      "ESP32A-001" (by decide) (by decide) (by decide)
    simpa using h⟩

/-! ### C3: no time-window validation on the scan/start path -/

/-- Counterexample to C3: the RFID scan of booking 7's code at
`t = 3601 s` — one second past `endTime` and outside the claimed
window — succeeds, activates the booking and issues the actuator
commands (door-unlock included) instead of being refused. -/
theorem rfid_scan_expired_counterexample :
    bkConfirmed.end_time = 3600000 ∧
    (handleRFIDScan sysStart "ESP32B-001" "secret-1" 3601000).2.success =
      true ∧
    (∀ b' ∈ (handleRFIDScan sysStart "ESP32B-001" "secret-1"
        3601000).1.bookings, b'.id = 7 → b'.status = "active") ∧
    ("ESP32A-001", Cmd.actuatorControl "door" "unlock") ∈
      (handleRFIDScan sysStart "ESP32B-001" "secret-1"
        3601000).1.attempted := by decide

/-- C3 (amended): the scan path performs no time-window validation: a
scan matching a booking's code activates the booking and issues the
full actuator sequence at every scan time `now` — the
`[startTime − 15min, endTime]` check with its `TooEarly` / `Expired`
reasons lives only in the standalone QR-validation operation, which
issues no commands. -/
theorem rfid_scan_no_time_validation (st : SysState)
    (deviceId rfid : String) (now : Int) (b : Booking) (room : Room)
    (dev : String)
    (hqr : findByQRCode st rfid = some b)
    (hbook : dbFindBooking st.bookings b.id = some b)
    (hroom : findRoom st b.room_id = some room)
    (hdev : room.esp32_id = some dev) :
    (handleRFIDScan st deviceId rfid now).2.success = true ∧
    (∀ b' ∈ (handleRFIDScan st deviceId rfid now).1.bookings,
      b'.id = b.id → b'.status = "active") ∧
    (dev, Cmd.actuatorControl "door" "unlock") ∈
      (handleRFIDScan st deviceId rfid now).1.attempted := by
  obtain ⟨ha, hb, hbr, hres⟩ :=
    startMeeting_normal st b.id b room dev hbook hroom hdev
  have hred : handleRFIDScan st deviceId rfid now =
      ((svcSendCommand (startMeeting st b.id).1 deviceId
          (.espResponse "RFID_VALIDATED")).1,
        (startMeeting st b.id).2) := by
    unfold handleRFIDScan
    simp only [hqr, hres]
    simp
  rw [hred]
  refine ⟨by rw [hres], ?_, ?_⟩
  · intro b' hb' hid
    rw [svcSend_bookings, hb] at hb'
    exact mem_updateBookingStatusDB_status _ _ _ _ hb' hid
  · rw [svcSend_attempted, ha]
    simp [startMeetingCmds]

/-- Witness for C3 (amended): booking 7 scanned at `t = 3601 s`. -/
theorem rfid_scan_no_time_validation_witness :
    (findByQRCode sysStart "secret-1" = some bkConfirmed ∧
      dbFindBooking sysStart.bookings bkConfirmed.id = some bkConfirmed ∧
      findRoom sysStart bkConfirmed.room_id = some roomA ∧
      roomA.esp32_id = some "ESP32A-001") ∧
    ((handleRFIDScan sysStart "ESP32B-001" "secret-1" 3601000).2.success =
        true ∧
      (∀ b' ∈ (handleRFIDScan sysStart "ESP32B-001" "secret-1"
          3601000).1.bookings, b'.id = bkConfirmed.id →
          b'.status = "active") ∧
      ("ESP32A-001", Cmd.actuatorControl "door" "unlock") ∈
        (handleRFIDScan sysStart "ESP32B-001" "secret-1"
          3601000).1.attempted) :=
  ⟨⟨by decide, by decide, by decide, by decide⟩,
    rfid_scan_no_time_validation sysStart "ESP32B-001" "secret-1" 3601000
      bkConfirmed roomA "ESP32A-001" (by decide) (by decide) (by decide)
      (by decide)⟩

/-! ### C5: offline submission and the reconnect flush -/

theorem foldl_send_connected (cs : List Cmd) (st : SysState)
    (dev : String) :
    (cs.foldl (fun s c => (svcSendCommand s dev c).1) st).connected =
      st.connected := by
  induction cs generalizing st with
  | nil => rfl
  | cons c cs ih => rw [List.foldl_cons, ih, svcSend_connected]

theorem foldl_send_queue (cs : List Cmd) (st : SysState) (dev : String) :
    (cs.foldl (fun s c => (svcSendCommand s dev c).1) st).queue =
      st.queue := by
  induction cs generalizing st with
  | nil => rfl
  | cons c cs ih => rw [List.foldl_cons, ih, svcSend_queue]

/-- Flushing a command list to a connected device delivers every
command, in order. -/
theorem foldl_send_delivered (cs : List Cmd) (st : SysState)
    (dev : String) (h : st.connected.contains dev = true) :
    (cs.foldl (fun s c => (svcSendCommand s dev c).1) st).delivered =
      st.delivered ++ cs.map (fun c => (dev, c)) := by
  induction cs generalizing st with
  | nil => simp
  | cons c cs ih =>
    rw [List.foldl_cons]
    have h' : (svcSendCommand st dev c).1.connected.contains dev = true := by
      rw [svcSend_connected]
      exact h
    rw [ih _ h']
    have hd : (svcSendCommand st dev c).1.delivered =
        st.delivered ++ [(dev, c)] := by
      have hmem : dev ∈ st.connected := by simpa using h
      unfold svcSendCommand
      simp [hmem]
    rw [hd]
    simp

/-- After removing a key from the queue, its lookup is empty. -/
theorem find?_filter_key_ne (q : List (String × List Cmd)) (dev : String) :
    (q.filter (fun kv => kv.1 ≠ dev)).find?
      (fun kv => kv.1 == dev) = none := by
  rw [List.find?_eq_none]
  intro x hx
  have hne := (List.mem_filter.mp hx).2
  simp only [ne_eq, decide_not, Bool.not_eq_true', decide_eq_false_iff_not] at hne
  simpa using hne

/-- A state with the gateway connected and two commands queued for it. -/
def sysQueued : SysState :=
  { rooms := [roomA], bookings := [], connected := ["ESP32A-001"],
    attempted := [], delivered := [], broadcasts := [],
    queue := [("ESP32A-001",
      [Cmd.actuatorControl "door" "lock",
        Cmd.displayUpdate "available"])] }

/-- Counterexample to C5: submitting a door-unlock command while the
gateway is offline reports the error `Device not connected`; the
command is not appended to the device's queue (which stays empty). -/
theorem offline_submit_not_queued_counterexample :
    (svcSendCommand sysOffline "ESP32A-001"
        (Cmd.actuatorControl "door" "unlock")).2 =
      ⟨false, "Device not connected"⟩ ∧
    (svcSendCommand sysOffline "ESP32A-001"
        (Cmd.actuatorControl "door" "unlock")).1.queue = [] := by decide

/-- C5 (amended): a command submitted to an offline device fails with
`Device not connected` and is not queued (no dispatch path feeds the
queue); commands placed in the queue via `queueCommandForDevice` are,
on `handleDeviceConnect` with the device connected, delivered in FIFO
order — before anything submitted later — and the queue entry is
deleted, so nothing is delivered twice. -/
theorem offline_dispatch_and_reconnect_flush (st : SysState)
    (dev : String) (c : Cmd) :
    (st.connected.contains dev = false →
      (svcSendCommand st dev c).2 = ⟨false, "Device not connected"⟩ ∧
      (svcSendCommand st dev c).1.queue = st.queue) ∧
    (st.connected.contains dev = true →
      (handleDeviceConnect st dev).1.delivered =
        st.delivered ++ (queueGet st dev).map (fun c0 => (dev, c0)) ∧
      queueGet (handleDeviceConnect st dev).1 dev = []) := by
  constructor
  · intro hoff
    constructor
    · have hnmem : dev ∉ st.connected := by simpa using hoff
      unfold svcSendCommand
      simp [hnmem]
    · exact svcSend_queue st dev c
  · intro hon
    constructor
    · unfold handleDeviceConnect
      simp only
      rw [foldl_send_delivered (queueGet st dev) st dev hon]
    · unfold handleDeviceConnect queueGet
      simp only
      rw [foldl_send_queue]
      rw [find?_filter_key_ne]
      rfl

/-- Witness for C5 (amended): an offline submit fails without queueing,
and a reconnect flush of two queued commands delivers both in order
and clears the queue. -/
theorem offline_dispatch_and_reconnect_flush_witness :
    (sysOffline.connected.contains "ESP32A-001" = false →
      (svcSendCommand sysOffline "ESP32A-001"
          (Cmd.actuatorControl "door" "unlock")).2 =
        ⟨false, "Device not connected"⟩ ∧
      (svcSendCommand sysOffline "ESP32A-001"
          (Cmd.actuatorControl "door" "unlock")).1.queue =
        sysOffline.queue) ∧
    (sysQueued.connected.contains "ESP32A-001" = true →
      (handleDeviceConnect sysQueued "ESP32A-001").1.delivered =
        sysQueued.delivered ++
          (queueGet sysQueued "ESP32A-001").map
            (fun c0 => ("ESP32A-001", c0)) ∧
      queueGet (handleDeviceConnect sysQueued "ESP32A-001").1
        "ESP32A-001" = []) :=
  ⟨(offline_dispatch_and_reconnect_flush sysOffline "ESP32A-001"
      (Cmd.actuatorControl "door" "unlock")).1,
    (offline_dispatch_and_reconnect_flush sysQueued "ESP32A-001"
      (Cmd.actuatorControl "door" "unlock")).2⟩
